import Mathlib

/-!
Verification of the audio-adaptation pipeline of
`src/Node/services/text_to_speech/text_to_speech_ibm.py`.

The Python functions are shallowly embedded as executable Lean functions.
Conventions used throughout:

* raw PCM byte strings become `List ℕ` (each entry a byte value `< 256`);
* 16-bit signed samples become `ℤ` (decoded from two's-complement
  little-endian byte pairs, exactly as `struct.unpack('<h', …)` does);
* Python / numpy float arithmetic is modelled by exact rational
  arithmetic (`ℚ`); `int(x)` on a nonnegative float is rational floor,
  on a general float it is truncation toward zero (`ratTrunc`);
* Python `//` on integers is floor division, which for the positive
  divisors used here coincides with Lean's Euclidean `/` on `ℤ`;
* numpy's `astype(np.int16)` wraps modulo 2^16 (`wrapInt16`);
  `np.round` rounds half to even (`roundHalfEven`);
* a `try:`/`except:` block whose body can raise becomes an
  `Except Unit` value together with the handler applied on `.error`.
-/

/-- Decoding of one little-endian two's-complement 16-bit sample from two
bytes, as `struct.unpack('<h', bytes)` in the Python source. -/
def decodeLE16 (lo hi : ℕ) : ℤ :=
  let u : ℕ := lo % 256 + 256 * (hi % 256)
  if u < 32768 then (u : ℤ) else (u : ℤ) - 65536

/-- Low byte of the little-endian encoding of a 16-bit sample, as produced
by `struct.pack('<h', v)` / `ndarray.tobytes()`. -/
def encodeLE16lo (v : ℤ) : ℕ := ((v % 65536).toNat) % 256

/-- High byte of the little-endian encoding of a 16-bit sample. -/
def encodeLE16hi (v : ℤ) : ℕ := ((v % 65536).toNat) / 256

/-- Reading a byte string as an array of 16-bit signed samples, as
`np.frombuffer(pcm_data, dtype=np.int16)` does (a trailing odd byte makes
the real call raise; callers guard for that separately). -/
def bytesToSamples : List ℕ → List ℤ
  | a :: b :: rest => decodeLE16 a b :: bytesToSamples rest
  | _ => []

/-- Serialising an array of 16-bit samples back to little-endian bytes,
as `resampled.tobytes()` in the Python source. -/
def samplesToBytes : List ℤ → List ℕ
  | [] => []
  | v :: rest => encodeLE16lo v :: encodeLE16hi v :: samplesToBytes rest

/-- Truncation of a rational toward zero, the behaviour of Python's
`int(...)` applied to a float. -/
def ratTrunc (q : ℚ) : ℤ := if q < 0 then -⌊-q⌋ else ⌊q⌋

/-- Stereo-to-mono mixing of one frame, line 121 of the source:
`mixed = (left_val + right_val) // 2`.  Python `//` is floor division;
for the positive divisor 2 Lean's Euclidean division on `ℤ` agrees. -/
def mixSample (l r : ℤ) : ℤ := (l + r) / 2

/-- Per-frame loop of the stereo branch of `extract_pcm_from_wav`
(lines 112-125): consume four bytes (one stereo frame), unpack the two
16-bit samples, mix, and pack the mixed sample back. -/
def stereoToMonoBytes : List ℕ → List ℕ
  | b0 :: b1 :: b2 :: b3 :: rest =>
    let m := mixSample (decodeLE16 b0 b1) (decodeLE16 b2 b3)
    encodeLE16lo m :: encodeLE16hi m :: stereoToMonoBytes rest
  | _ => []

/-- Channel handling of `extract_pcm_from_wav` (lines 108-127), after the
WAV header has yielded `channels` and the PCM payload: only the value 2
triggers the stereo-to-mono conversion; every other channel count falls
through to `return pcm_data`, i.e. the data passes through unchanged.
No `UnsupportedFormatError` (or any other validation) exists. -/
def extract_pcm_from_wav (channels : ℕ) (pcm : List ℕ) : List ℕ :=
  if channels = 2 then stereoToMonoBytes pcm else pcm

/-- Linear-interpolation core of `resample_audio` (lines 153-178), on
decoded samples: `target_length = int(len(samples) * ratio)` with
`ratio = target_rate / src_rate`, and for each output index the source
position `i / ratio`, its integer part, linear interpolation between the
two neighbouring samples truncated by `int(...)`, clamped to the last
sample when the integer part reaches `len(samples) - 1`. -/
def resample_core (s : List ℤ) (src tgt : ℕ) : List ℤ :=
  (List.range (s.length * tgt / src)).map fun i =>
    let i0 : ℕ := i * src / tgt
    let frac : ℚ := (i * src : ℚ) / tgt - (i0 : ℚ)
    if s.length ≤ i0 + 1 then s.getD (s.length - 1) 0
    else ratTrunc ((1 - frac) * (s.getD i0 0 : ℚ) + frac * (s.getD (i0 + 1) 0 : ℚ))

/-- Body of the `try:` block of `resample_audio` (lines 151-184).  The
steps that can raise are `np.frombuffer` (odd byte count) and
`ratio = float(target_rate) / float(src_rate)` (source rate zero). -/
def resample_body (pcm : List ℕ) (src tgt : ℕ) : Except Unit (List ℕ) :=
  if pcm.length % 2 ≠ 0 then .error ()
  else if src = 0 then .error ()
  else .ok (samplesToBytes (resample_core (bytesToSamples pcm) src tgt))

/-- Whole of `resample_audio` (lines 132-189): identical rates return the
input; otherwise the body runs under a catch-all `except` whose handler
returns the original `pcm_data`. -/
def resample_audio (pcm : List ℕ) (src tgt : ℕ) : List ℕ :=
  if src = tgt then pcm
  else
    match resample_body pcm src tgt with
    | .ok r => r
    | .error _ => pcm

theorem samplesToBytes_length : ∀ s : List ℤ, (samplesToBytes s).length = 2 * s.length
  | [] => rfl
  | _ :: rest => by
    simp [samplesToBytes, samplesToBytes_length rest]
    ring

theorem bytesToSamples_length : ∀ b : List ℕ, (bytesToSamples b).length = b.length / 2
  | [] => rfl
  | [_] => by simp [bytesToSamples]
  | _ :: _ :: rest => by
    simp [bytesToSamples, bytesToSamples_length rest]
    omega

/-- C5 counterexample.  The claim says the downmix averages with
truncating division in two's-complement semantics (`Int.tdiv`).  On the
single stereo frame (-1, -2) — bytes `ff ff fe ff` — the code computes
Python `(-3) // 2 = -2` (floor division) and emits `fe ff`, i.e. -2;
truncating division would give `-1`.  So the claim is false as stated. -/
theorem C5_counterexample :
    stereoToMonoBytes [255, 255, 254, 255] = [254, 255] ∧
      decodeLE16 254 255 = -2 ∧ Int.tdiv (-3) 2 = -1 ∧ ((-2 : ℤ) ≠ -1) := by
  refine ⟨by decide, by decide, by decide, by decide⟩

/-- C5 amended.  The downmix produces, per stereo frame, the arithmetic
mean of left and right samples computed with *floor* division (Python
`//`); it never clips (the mean of two in-range 16-bit samples is in
range); and the spec scenario holds: frames [(100,200),(300,400)]
(little-endian bytes) map to [150, 350]. -/
theorem C5_amended :
    (∀ l r : ℤ, mixSample l r = ⌊((l : ℚ) + r) / 2⌋) ∧
      (∀ l r : ℤ, -32768 ≤ l → l ≤ 32767 → -32768 ≤ r → r ≤ 32767 →
        -32768 ≤ mixSample l r ∧ mixSample l r ≤ 32767) ∧
      stereoToMonoBytes [100, 0, 200, 0, 44, 1, 144, 1] = [150, 0, 94, 1] := by
  refine ⟨fun l r => ?_, fun l r h1 h2 h3 h4 => ?_, by decide⟩
  · rw [← Int.cast_add]
    exact (Rat.floor_intCast_div_natCast (l + r) 2).symm
  · unfold mixSample
    omega

/-- C5 witness: the amended no-clip bound applied at the concrete frame
(100, 200). -/
theorem C5_amended_witness :
    -32768 ≤ mixSample 100 200 ∧ mixSample 100 200 ≤ 32767 :=
  C5_amended.2.1 100 200 (by norm_num) (by norm_num) (by norm_num) (by norm_num)

/-- C6 counterexample.  The claim says any channel count other than 1 or
2 fails with `UnsupportedFormatError` with no audio data passed through.
The code has no such error: with `channels = 3` the stereo test
`channels == 2` is false and the PCM data is returned unchanged. -/
theorem C6_counterexample : extract_pcm_from_wav 3 [10, 20] = [10, 20] := by decide

/-- C6 amended.  For every channel count other than 2 (including counts
the spec calls unsupported) `extract_pcm_from_wav` passes the PCM data
through unchanged; no validation or `UnsupportedFormatError` exists. -/
theorem C6_amended (channels : ℕ) (pcm : List ℕ) (h : channels ≠ 2) :
    extract_pcm_from_wav channels pcm = pcm := by
  unfold extract_pcm_from_wav
  simp [h]

/-- C6 witness: the amended passthrough applied at channel count 5. -/
theorem C6_amended_witness : extract_pcm_from_wav 5 [1, 2, 3] = [1, 2, 3] :=
  C6_amended 5 [1, 2, 3] (by decide)

theorem ratTrunc_intCast (c : ℤ) : ratTrunc (c : ℚ) = c := by
  unfold ratTrunc
  split
  · rw [← Int.cast_neg, Int.floor_intCast, neg_neg]
  · exact Int.floor_intCast c

/-- C3 counterexample.  The claim says `resample_audio` produces exactly
`round(len * targetRate / sourceRate)` samples and that 100 samples at
22050 Hz resampled to 48000 Hz yield 218.  The code computes
`target_length = int(len(samples) * ratio)`, i.e. truncation: for 100
samples that is `int(217.687...) = 217`, not `round(...) = 218`. -/
theorem C3_counterexample :
    (resample_core (List.replicate 100 (1000 : ℤ)) 22050 48000).length = 217 ∧
      round ((100 * 48000 : ℚ) / 22050) = 218 ∧ (217 : ℕ) ≠ 218 := by
  refine ⟨?_, ?_, by decide⟩
  · simp [resample_core]
  · rw [round_eq]
    norm_num

/-- C3 amended.  For even-length input, distinct positive rates,
`resample_audio` produces exactly `⌊sampleCount * targetRate / sourceRate⌋`
output samples (truncation, not rounding), i.e. `2 * that` output bytes;
the spec scenario yields 217 samples, not 218. -/
theorem C3_amended (pcm : List ℕ) (src tgt : ℕ) (hs : 0 < src) (_ht : 0 < tgt)
    (hne : src ≠ tgt) (heven : pcm.length % 2 = 0) :
    (resample_audio pcm src tgt).length = 2 * (pcm.length / 2 * tgt / src) := by
  have hsrc : src ≠ 0 := by omega
  unfold resample_audio resample_body
  simp [hne, heven, hsrc, resample_core, samplesToBytes_length, bytesToSamples_length]

/-- C3 witness: the amended length formula at the concrete two-sample
buffer `00 00 e8 03` (samples [0, 1000]) from 22050 Hz to 48000 Hz,
giving 2 * (2 * 48000 / 22050) = 8 bytes, i.e. 4 samples. -/
theorem C3_amended_witness : (resample_audio [0, 0, 232, 3] 22050 48000).length = 8 := by
  have h := C3_amended [0, 0, 232, 3] 22050 48000 (by norm_num) (by norm_num)
    (by norm_num) (by decide)
  simpa using h

/-- C4 counterexample.  The claim says each Fast-resampler output sample
is `round((1-frac)*s[i0] + frac*s[i0+1])`.  The code truncates with
`int(...)`.  For source samples [0, 1] at 22050 -> 48000 Hz, output index
2 has `p = 2*22050/48000 = 0.91875`, `i0 = 0`, `frac = 0.91875`; the
claimed rounding gives 1, the code gives `int(0.91875) = 0`. -/
theorem C4_counterexample :
    (resample_core [0, 1] 22050 48000).getD 2 0 = 0 ∧
      round ((1 - ((2 * 22050 : ℚ) / 48000 - 0)) * 0 + ((2 * 22050 : ℚ) / 48000 - 0) * 1) = 1 ∧
      ((0 : ℤ) ≠ 1) := by
  refine ⟨by with_unfolding_all rfl, ?_, by decide⟩
  rw [round_eq]
  norm_num

/-- C4 amended.  Each Fast-resampler output sample is the *truncation
toward zero* of `(1-frac)*s[i0] + frac*s[i0+1]` (Python `int(...)`),
clamped to the last source sample when `i0 >= len(s)-1`; consequently a
constant-valued input still resamples to the same constant at every
output sample (exact in the rational model of the float arithmetic). -/
theorem C4_amended :
    (∀ (s : List ℤ) (src tgt i : ℕ), i < s.length * tgt / src →
      (resample_core s src tgt).getD i 0 =
        (if s.length ≤ i * src / tgt + 1 then s.getD (s.length - 1) 0
         else ratTrunc ((1 - ((i * src : ℚ) / tgt - ((i * src / tgt : ℕ) : ℚ))) *
             (s.getD (i * src / tgt) 0 : ℚ) +
           ((i * src : ℚ) / tgt - ((i * src / tgt : ℕ) : ℚ)) *
             (s.getD (i * src / tgt + 1) 0 : ℚ)))) ∧
      (∀ (c : ℤ) (n src tgt : ℕ), 0 < src → 0 < tgt →
        ∀ x ∈ resample_core (List.replicate n c) src tgt, x = c) := by
  constructor
  · intro s src tgt i hi
    simp [resample_core, List.getD, List.getElem?_map, List.getElem?_range, hi]
  · intro c n src tgt hs ht x hx
    unfold resample_core at hx
    simp only [List.mem_map, List.mem_range, List.length_replicate] at hx
    obtain ⟨i, hi, rfl⟩ := hx
    have hn : 0 < n := by
      rcases Nat.eq_zero_or_pos n with h | h
      · subst h; simp at hi
      · exact h
    by_cases hcl : n ≤ i * src / tgt + 1
    · simp [hcl, List.getD, List.getElem?_replicate, Nat.sub_lt hn]
    · have h1 : i * src / tgt < n := by omega
      have h2 : i * src / tgt + 1 < n := by omega
      simp only [hcl, if_false, List.getD, List.get?_eq_getElem?,
        List.getElem?_replicate_of_lt h1, List.getElem?_replicate_of_lt h2,
        Option.getD_some]
      have harith :
          (1 - ((i * src : ℚ) / tgt - ((i * src / tgt : ℕ) : ℚ))) * (c : ℚ) +
            ((i * src : ℚ) / tgt - ((i * src / tgt : ℕ) : ℚ)) * (c : ℚ) = (c : ℚ) := by
        ring
      rw [harith, ratTrunc_intCast]

/-- C4 witness: the amended per-sample formula applied at source [0, 1],
rates 22050 -> 48000, output index 1, where it evaluates to
`int(0.459375 * 1) = 0`. -/
theorem C4_amended_witness : (resample_core [0, 1] 22050 48000).getD 1 0 = 0 := by
  have h := C4_amended.1 [0, 1] 22050 48000 1 (by decide)
  rw [h]
  with_unfolding_all rfl

/-- Rounding half to even, the behaviour of `np.round` on float arrays. -/
def roundHalfEven (q : ℚ) : ℤ :=
  if q - ⌊q⌋ < 1 / 2 then ⌊q⌋
  else if 1 / 2 < q - ⌊q⌋ then ⌊q⌋ + 1
  else if ⌊q⌋ % 2 = 0 then ⌊q⌋ else ⌊q⌋ + 1

/-- Wrap-around of numpy's `astype(np.int16)`: reduction modulo 2^16 into
[-32768, 32767].  No saturation or clamping takes place. -/
def wrapInt16 (n : ℤ) : ℤ := (n + 32768) % 65536 - 32768

/-- Absolute value computed inside int16 arithmetic, as `np.abs` on an
int16 array: the magnitude wraps, so `np.abs(-32768) = -32768`. -/
def absInt16 (n : ℤ) : ℤ := wrapInt16 (if n < 0 then -n else n)

/-- Maximum of a numpy array (`np.max`); the real call raises on an empty
array, which callers of this model handle as a separate error case. -/
def npMaxInt : List ℤ → Option ℤ
  | [] => none
  | x :: xs => some (xs.foldl max x)

/-- Conversion of line 296 of the source:
`np.round(resampled_float * 32767).astype(np.int16)` — scale, round half
to even, then wrap into int16.  There is no clamping of the floats. -/
def to_int16_raw (xs : List ℚ) : List ℤ :=
  xs.map fun q => wrapInt16 (roundHalfEven (q * 32767))

/-- Normalisation block of lines 296-303: the int16 conversion followed by
`max_val = np.max(np.abs(resampled)); if max_val > 32767: rescale`.
Because `max_val` is computed from the already-wrapped int16 array, the
rescale branch is unreachable. -/
def to_int16_stage (xs : List ℚ) : List ℤ :=
  match npMaxInt ((to_int16_raw xs).map absInt16) with
  | none => to_int16_raw xs
  | some m =>
    if 32767 < m then
      (to_int16_raw xs).map fun v => wrapInt16 (roundHalfEven ((v : ℚ) * (32767 / (m : ℚ))))
    else to_int16_raw xs

/-- Clamping of a float into [-1, 1]. -/
def clamp_unit (q : ℚ) : ℚ := max (-1) (min 1 q)

/-- Modelled from the spec: the claimed conversion in which "all floating
intermediate values are clamped into [-1,1] before rescaling" and, should
the maximum absolute sample still exceed the 16-bit range, "the whole
buffer is rescaled proportionally so the peak lands exactly at the
maximum representable magnitude".  This definition follows the spec's
words; the source has no clamp and checks the maximum only after the
wrapping cast. -/
def spec_clamped_stage (xs : List ℚ) : List ℤ :=
  let r := xs.map fun q => roundHalfEven (clamp_unit q * 32767)
  match npMaxInt (r.map fun v => |v|) with
  | none => r
  | some m =>
    if 32767 < m then r.map fun v => roundHalfEven ((v : ℚ) * 32767 / (m : ℚ))
    else r

theorem wrapInt16_le (n : ℤ) : wrapInt16 n ≤ 32767 := by
  unfold wrapInt16
  omega

theorem absInt16_le (n : ℤ) : absInt16 n ≤ 32767 := by
  unfold absInt16
  split <;> exact wrapInt16_le _

theorem foldl_max_le_of_le {B : ℤ} :
    ∀ (l : List ℤ) (a : ℤ), a ≤ B → (∀ x ∈ l, x ≤ B) → l.foldl max a ≤ B
  | [], _, ha, _ => ha
  | x :: xs, a, ha, h =>
    foldl_max_le_of_le xs (max a x) (max_le ha (h x (List.mem_cons_self x xs)))
      fun y hy => h y (List.mem_cons_of_mem x hy)

theorem to_int16_stage_eq_raw (xs : List ℚ) : to_int16_stage xs = to_int16_raw xs := by
  unfold to_int16_stage
  split
  · rfl
  next m hm =>
    have hle : m ≤ 32767 := by
      rcases hl : (to_int16_raw xs).map absInt16 with _ | ⟨y, ys⟩
      · rw [hl] at hm
        exact absurd hm (by simp [npMaxInt])
      · rw [hl] at hm
        unfold npMaxInt at hm
        injection hm with hm
        subst hm
        have hmem : ∀ x ∈ y :: ys, x ≤ 32767 := by
          intro x hx
          have hx2 : x ∈ (to_int16_raw xs).map absInt16 := by rw [hl]; exact hx
          obtain ⟨z, _, rfl⟩ := List.mem_map.mp hx2
          exact absInt16_le z
        exact foldl_max_le_of_le ys y (hmem y (List.mem_cons_self y ys))
          fun x hx => hmem x (List.mem_cons_of_mem y hx)
    rw [if_neg (by omega)]

/-- C2: the code_bug evidence.  `fix_audio_for_unity`'s comment
"Normalize to avoid clipping (scale down if needed)" promises what the
claim states, but the conversion wraps first and checks afterwards:
(1) the float value 1.25 (a cubic-interpolation overshoot) becomes
`round(1.25 * 32767) = 40959`, which `astype(np.int16)` wraps to -24577 —
a positive input emitted as a large negative sample; (2) the rescale
branch can never run, because the maximum of an already-wrapped int16
array never exceeds 32767, so the stage always equals the bare wrapped
conversion; (3) the spec's clamped conversion would emit 32767 instead. -/
theorem C2_evaluation :
    to_int16_stage [5 / 4] = [-24577] ∧
      (∀ xs : List ℚ, to_int16_stage xs = to_int16_raw xs) ∧
      spec_clamped_stage [5 / 4] = [32767] := by
  exact ⟨by with_unfolding_all rfl, to_int16_stage_eq_raw, by with_unfolding_all rfl⟩

/-- Normalisation of line 238: `samples.astype(np.float32) / 32768.0`. -/
def float_norm (s : List ℤ) : List ℚ := s.map fun v => (v : ℚ) / 32768

/-- Boxcar smoothing of lines 282-293: when the buffer holds more than 10
samples, a 3-tap moving average (`np.convolve(..., mode='same')`, zero
padding at the ends) replaces the interior
`resampled_float[kernel_size:-kernel_size]`, leaving the first and last 3
samples untouched. -/
def smooth_pass (r : List ℚ) : List ℚ :=
  if r.length ≤ 10 then r
  else
    (List.range r.length).map fun i =>
      if 3 ≤ i ∧ i + 3 < r.length then
        ((if i = 0 then 0 else r.getD (i - 1) 0) + r.getD i 0 + r.getD (i + 1) 0) / 3
      else r.getD i 0

/-- Linear-interpolation fallback inside `fix_audio_for_unity`
(lines 266-278), on normalised floats: reachable only when
`interpolate.interp1d` itself raises ImportError or NameError. -/
def linear_interp_floats (fs : List ℚ) (src unity tl : ℕ) : List ℚ :=
  (List.range tl).map fun i =>
    let i0 : ℕ := i * src / unity
    let frac : ℚ := (i * src : ℚ) / unity - (i0 : ℚ)
    if fs.length ≤ i0 + 1 then fs.getD (fs.length - 1) 0
    else (1 - frac) * fs.getD i0 0 + frac * fs.getD (i0 + 1) 0

/-- Core of the outer exception handler of `fix_audio_for_unity`
(lines 327-345): "simple linear resampling" that in fact performs no
interpolation at all — each output sample is the source sample at the
floored index `int(i * ratio)` (positions beyond the buffer keep the
preallocated zero). -/
def fallback_simple_core (s : List ℤ) (src unity : ℕ) : List ℤ :=
  (List.range (s.length * unity / src)).map fun i =>
    if i * src / unity < s.length then s.getD (i * src / unity) 0 else 0

/-- Raisable steps of the handler body (lines 327-345): `np.frombuffer`
on an odd byte count, `ratio = float(source_rate)/float(unity_rate)` with
`unity_rate = 0`, and `int(len(samples)/ratio)` with `ratio = 0`. -/
def fallback_simple_body (pcm : List ℕ) (src unity : ℕ) : Except Unit (List ℕ) :=
  if pcm.length % 2 ≠ 0 then .error ()
  else if unity = 0 then .error ()
  else if src = 0 then .error ()
  else .ok (samplesToBytes (fallback_simple_core (bytesToSamples pcm) src unity))

/-- Outer exception handler of `fix_audio_for_unity` (lines 322-348): the
simple resampling runs under its own bare `except:` whose handler returns
the original data. -/
def fallback_simple (pcm : List ℕ) (src unity : ℕ) : List ℕ :=
  match fallback_simple_body pcm src unity with
  | .ok r => r
  | .error _ => pcm

/-- Body of the outer `try:` of `fix_audio_for_unity` (lines 231-320).
`scipyImportOk` models whether `from scipy import interpolate` (line 251)
succeeds — that import stands *outside* the inner `try:`, so its failure
propagates to the outer handler.  `interpNameErr` models the only
exceptions the inner handler catches, `interp1d` itself raising
ImportError or NameError (line 263).  The cubic interpolation value is
scipy library code and is taken as an abstract function from the
normalised samples and the target length to the interpolated floats.
An empty input makes the `fill_value` indexing `float_samples[0]` raise,
and an empty resampled array makes `np.max` (line 299) raise; both go to
the outer handler. -/
def fix_main_body (scipyImportOk interpNameErr : Bool) (cubic : List ℚ → ℕ → List ℚ)
    (pcm : List ℕ) (src unity : ℕ) : Except Unit (List ℕ) :=
  if pcm.length % 2 ≠ 0 then .error ()
  else if src = 0 then .error ()
  else
    let floats := float_norm (bytesToSamples pcm)
    let tl := floats.length * unity / src
    if scipyImportOk = false then .error ()
    else if interpNameErr then
      let sm := smooth_pass (linear_interp_floats floats src unity tl)
      if sm = [] then .error () else .ok (samplesToBytes (to_int16_stage sm))
    else if floats = [] then .error ()
    else
      let sm := smooth_pass (cubic floats tl)
      if sm = [] then .error () else .ok (samplesToBytes (to_int16_stage sm))

/-- Whole of `fix_audio_for_unity` (lines 214-348): equal rates return
the input unchanged; otherwise the main body runs, and any failure in it
falls to the simple floor-index resampler, whose own failure returns the
original data. -/
def fix_audio_for_unity (scipyImportOk interpNameErr : Bool)
    (cubic : List ℚ → ℕ → List ℚ) (pcm : List ℕ) (src unity : ℕ) : List ℕ :=
  if src = unity then pcm
  else
    match fix_main_body scipyImportOk interpNameErr cubic pcm src unity with
    | .ok r => r
    | .error _ => fallback_simple pcm src unity

/-- C8: the code_bug evidence.  The claim (and the code's own comment
"scipy not available, falling back to linear interpolation") says that
when the scipy import fails the resampler degrades to Fast linear
interpolation.  In the code the `from scipy import interpolate` statement
stands outside the inner `try:`, so an ImportError there reaches the
*outer* handler, which runs the no-interpolation floor-index fallback
instead: on samples [0, 1000] (bytes `00 00 e8 03`) at 22050 -> 48000 Hz
it produces samples [0, 0, 0, 1000], while linear interpolation (the Fast
strategy, `resample_core`) produces [0, 459, 918, 1000] — they already
differ at output index 1 (0 versus 459). -/
theorem C8_evaluation :
    fix_audio_for_unity false false (fun _ _ => []) [0, 0, 232, 3] 22050 48000 =
        [0, 0, 0, 0, 0, 0, 232, 3] ∧
      resample_core [0, 1000] 22050 48000 = [0, 459, 918, 1000] ∧
      ((0 : ℤ) ≠ 459) := by
  exact ⟨by with_unfolding_all rfl, by with_unfolding_all rfl, by decide⟩

/-- C10: error atomicity of the resampling entry points.  Whenever the
body of `resample_audio`'s `try:` block fails, the function returns the
original input bytes unchanged and no exception escapes (the model is a
total function); the identical catch-all shape guards the terminal
fallback of `fix_audio_for_unity`. -/
theorem C10_error_atomic :
    (∀ (pcm : List ℕ) (src tgt : ℕ) (e : Unit),
        resample_body pcm src tgt = .error e → resample_audio pcm src tgt = pcm) ∧
      (∀ (pcm : List ℕ) (src unity : ℕ) (e : Unit),
        fallback_simple_body pcm src unity = .error e → fallback_simple pcm src unity = pcm) := by
  constructor
  · intro pcm src tgt e h
    unfold resample_audio
    split
    · rfl
    · rw [h]
  · intro pcm src unity e h
    unfold fallback_simple
    rw [h]

/-- C10 witness: a one-byte buffer (odd length) makes `np.frombuffer`
fail; `resample_audio` returns the buffer unchanged. -/
theorem C10_error_atomic_witness : resample_audio [1] 22050 48000 = [1] :=
  C10_error_atomic.1 [1] 22050 48000 () (by with_unfolding_all rfl)

/-- Failure environment for one call of `synthesize_speech`
(lines 437-744): which of the collaborator-dependent steps succeed.
`synthesizerOk` — a synthesizer object was supplied (line 438);
`wavOk` — the `accept='audio/wav'` request (458-464) returns;
`pilotOk` — pilot-tone creation and combination (550-632) succeed;
`formatsMatch` — the pilot and speech WAV formats agree (588-590);
`pcmOk` — the `accept='audio/l16;rate=44100'` fallback request (656-662)
returns; `beepOk` — the beep WAV construction (702-721) succeeds. -/
structure SynthEnv where
  synthesizerOk : Bool
  wavOk : Bool
  pilotOk : Bool
  formatsMatch : Bool
  pcmOk : Bool
  beepOk : Bool

/-- Shapes of a successful return of `synthesize_speech`: the combined
pilot+speech WAV (line 632), the speech WAV alone (603/648), the WAV
wrapped around raw PCM (696), or the diagnostic beep WAV (733). -/
inductive SynthResult
  | combinedWav
  | speechWav
  | pcmDerivedWav
  | beepWav

/-- Control-flow skeleton of `synthesize_speech`'s nested `try:` blocks
(lines 437-744): no synthesizer returns `None` (446); a successful WAV
request always returns some WAV (632, 603, 648); on WAV failure the raw
PCM request is wrapped in a WAV (696); on its failure a beep is built
(733); and when even the beep construction fails the handler at lines
735-737 returns `None` — there is no silence path in this function. -/
def synthesize_speech_flow (e : SynthEnv) : Option SynthResult :=
  if e.synthesizerOk = false then none
  else if e.wavOk then
    if e.pilotOk then
      if e.formatsMatch then some .combinedWav else some .speechWav
    else some .speechWav
  else if e.pcmOk then some .pcmDerivedWav
  else if e.beepOk then some .beepWav
  else none

/-- Terminal exception handler of `create_basic_unity_compatible_audio`
(lines 432-435): `np.zeros(100, dtype=np.int16).tobytes()` — exactly 100
samples of silence.  (That function is never called by
`synthesize_speech`.) -/
def create_basic_error_fallback : List ℤ := List.replicate 100 0

/-- C1 counterexample.  The claim says that when the WAV request, the
raw-PCM fallback and tone generation all fail, `synthesize_speech`
returns a fixed-duration buffer of silence rather than nothing.  In the
code the handler of the beep construction (lines 735-737) returns `None`:
with a working synthesizer but failing WAV, PCM and beep steps the call
returns nothing. -/
theorem C1_counterexample :
    synthesize_speech_flow ⟨true, false, true, true, false, false⟩ = none := rfl

/-- C1 amended.  When the WAV request, the raw-PCM fallback and the beep
construction all fail, `synthesize_speech` returns `None` (callers see
`audio_data` falsy and log "Failed to synthesize speech"); the only
fixed-duration silence terminal in the file is the exception handler of
`create_basic_unity_compatible_audio` — a function `synthesize_speech`
never calls — which returns exactly 100 zero samples and cannot fail. -/
theorem C1_amended :
    (∀ e : SynthEnv, e.synthesizerOk = true → e.wavOk = false → e.pcmOk = false →
        e.beepOk = false → synthesize_speech_flow e = none) ∧
      create_basic_error_fallback.length = 100 ∧
      ∀ x ∈ create_basic_error_fallback, x = 0 := by
  refine ⟨fun e h1 h2 h3 h4 => ?_, rfl, fun x hx => ?_⟩
  · simp [synthesize_speech_flow, h1, h2, h3, h4]
  · exact List.eq_of_mem_replicate hx

/-- C1 witness: the amended statement applied at the concrete environment
with every fallible step failing. -/
theorem C1_amended_witness :
    synthesize_speech_flow ⟨true, false, false, false, false, false⟩ = none :=
  C1_amended.1 ⟨true, false, false, false, false, false⟩ rfl rfl rfl rfl

/-- Sample count of `create_basic_unity_compatible_audio` (line 386):
`num_samples = int(unity_rate * duration)` with `duration = 1.0`
hard-coded at line 382 — the pilot duration is not a parameter. -/
def create_basic_num_samples (rate : ℕ) : ℕ := (⌊(rate : ℚ) * 1⌋).toNat

/-- Fade length of line 402: `fade_samples = int(unity_rate * 0.05)`. -/
def create_basic_fade_samples (rate : ℕ) : ℕ := (⌊(rate : ℚ) * (5 / 100)⌋).toNat

/-- One sample of the test tone of `create_basic_unity_compatible_audio`
(lines 393-414), parameterised by the sine `g` (modelling `x ↦ sin(2πx)`,
numpy library code): the wave value is scaled by 0.1 (line 399), faded
linearly over the first `fade_samples` samples and the samples after
`num_samples - fade_samples` (401-406), and converted with
`int(value * 3276)` (409) — so the amplitude is scaled by 0.1 *and* by
3276, about 1% of the 16-bit range, not 10%. -/
def create_basic_sample (g : ℚ → ℚ) (rate i : ℕ) : ℤ :=
  let n := create_basic_num_samples rate
  let fade := create_basic_fade_samples rate
  let v : ℚ := g (440 * ((i : ℚ) / rate)) * (1 / 10)
  let v2 : ℚ :=
    if i < fade then v * ((i : ℚ) / fade)
    else if n - fade < i then v * (((n - i : ℕ) : ℚ) / fade)
    else v
  ratTrunc (v2 * 3276)

/-- Test tone of `create_basic_unity_compatible_audio` (lines 378-430). -/
def create_basic_tone (g : ℚ → ℚ) (rate : ℕ) : List ℤ :=
  (List.range (create_basic_num_samples rate)).map (create_basic_sample g rate)

/-- One sample of the pilot tone built inside `synthesize_speech`
(line 563): `int(np.sin(2 * np.pi * 440 * i / 44100) * 3276)` — no fade
envelope of any kind is applied. -/
def pilot_tone_sample (g : ℚ → ℚ) (i : ℕ) : ℤ :=
  ratTrunc (g (440 * (i : ℚ) / 44100) * 3276)

/-- Pilot tone of `synthesize_speech` (lines 559-568): `samples = 220`
hard-coded. -/
def pilot_tone (g : ℚ → ℚ) : List ℤ := (List.range 220).map (pilot_tone_sample g)

theorem create_basic_num_samples_eq (rate : ℕ) : create_basic_num_samples rate = rate := by
  simp [create_basic_num_samples]

/-- C7 counterexample.  The claim describes one parameterised generator
producing `round(sampleRate * durationSeconds)` faded samples, with the
scenario {440 Hz, 0.005 s, 0.1, 44100 Hz} giving 220 samples.  The code
has two generators and neither satisfies this: the fade-equipped
`create_basic_unity_compatible_audio` ignores any requested duration
(1.0 s hard-coded), producing 44100 samples at rate 44100, not 220; and
the 220-sample pilot tone of `synthesize_speech` applies no fade at all —
with the sine replaced by the constant 1, its first and last samples both
sit at the full scale 3276 where a 5% linear fade would force sample 0 to
0 and sample 219 to at most 3276/11. -/
theorem C7_counterexample :
    (create_basic_tone (fun _ => 0) 44100).length = 44100 ∧
      pilot_tone_sample (fun _ => 1) 0 = 3276 ∧
      pilot_tone_sample (fun _ => 1) 219 = 3276 ∧
      (44100 : ℕ) ≠ 220 := by
  refine ⟨?_, by with_unfolding_all rfl, by with_unfolding_all rfl, by decide⟩
  simp [create_basic_tone, create_basic_num_samples_eq]

/-- C7 amended.  The code has two tone generators, both with frequency,
duration and amplitude hard-coded rather than taken from a spec:
`create_basic_unity_compatible_audio` produces `int(rate * 1.0) = rate`
samples with a linear fade (first sample exactly 0 whenever the fade
window is nonempty), and the pilot tone of `synthesize_speech` produces
exactly 220 samples with no fade. -/
theorem C7_amended :
    (∀ (g : ℚ → ℚ) (rate : ℕ), (create_basic_tone g rate).length = rate) ∧
      (∀ g : ℚ → ℚ, (pilot_tone g).length = 220) ∧
      (∀ (g : ℚ → ℚ) (rate : ℕ), 0 < create_basic_fade_samples rate →
        (create_basic_tone g rate).getD 0 99 = 0) := by
  refine ⟨fun g rate => ?_, fun g => ?_, fun g rate hf => ?_⟩
  · simp [create_basic_tone, create_basic_num_samples_eq]
  · simp [pilot_tone]
  · have hrate : 0 < rate := by
      rcases Nat.eq_zero_or_pos rate with h | h
      · subst h
        simp [create_basic_fade_samples] at hf
      · exact h
    have h0 : 0 < create_basic_num_samples rate := by rwa [create_basic_num_samples_eq]
    unfold create_basic_tone
    simp only [List.getD, List.get?_eq_getElem?, List.getElem?_map, List.getElem?_range, h0,
      if_true, Option.map_some, Option.getD_some]
    simp [create_basic_sample, hf, ratTrunc]

/-- C7 witness: at rate 44100 the fade window holds 2205 samples, so the
first sample of the faded test tone is exactly 0. -/
theorem C7_amended_witness : (create_basic_tone (fun _ => 1) 44100).getD 0 99 = 0 :=
  C7_amended.2.2 (fun _ => 1) 44100 (by norm_num [create_basic_fade_samples])

/-- Modelled from the spec: the WAV container framing.  The source frames
and unframes WAV through Python's `wave` standard library, which is not
part of this repository; §6 of the spec describes the container as a
`RIFF`/`WAVE` header with a `fmt ` chunk declaring PCM and a `data` chunk
carrying the payload.  `encodeWav` writes the standard 44-byte header for
16-bit PCM (chunk sizes, PCM format tag 1, channel count, sample rate,
byte rate, block align, bit depth 16, payload size) followed by the raw
PCM bytes, as `wave.open(..., 'wb')` with `setsampwidth(2)` does. -/
def encodeWav (ch rate : ℕ) (pcm : List ℕ) : List ℕ :=
  82 :: 73 :: 70 :: 70 ::
  (36 + pcm.length) % 256 :: (36 + pcm.length) / 256 % 256 ::
    (36 + pcm.length) / 65536 % 256 :: (36 + pcm.length) / 16777216 % 256 ::
  87 :: 65 :: 86 :: 69 ::
  102 :: 109 :: 116 :: 32 ::
  16 :: 0 :: 0 :: 0 ::
  1 :: 0 ::
  ch % 256 :: ch / 256 % 256 ::
  rate % 256 :: rate / 256 % 256 :: rate / 65536 % 256 :: rate / 16777216 % 256 ::
  (rate * ch * 2) % 256 :: (rate * ch * 2) / 256 % 256 ::
    (rate * ch * 2) / 65536 % 256 :: (rate * ch * 2) / 16777216 % 256 ::
  (ch * 2) % 256 :: (ch * 2) / 256 % 256 ::
  16 :: 0 ::
  100 :: 97 :: 116 :: 97 ::
  pcm.length % 256 :: pcm.length / 256 % 256 ::
    pcm.length / 65536 % 256 :: pcm.length / 16777216 % 256 ::
  pcm

/-- Modelled from the spec: the container decode direction.  It parses
the fixed 44-byte header, failing when the blob is shorter than the
header, a magic marker (`RIFF`, `WAVE`, `fmt `, `data`) is malformed, the
format tag is not PCM, or the bit depth is not 16 (always fatal per §4.2),
and returns the channel count, the sample rate, and the payload. -/
def decodeWav : List ℕ → Except String (ℕ × ℕ × List ℕ)
  | r0 :: r1 :: r2 :: r3 :: _s0 :: _s1 :: _s2 :: _s3 ::
    w0 :: w1 :: w2 :: w3 :: f0 :: f1 :: f2 :: f3 ::
    _c0 :: _c1 :: _c2 :: _c3 :: t0 :: t1 :: ch0 :: ch1 ::
    sr0 :: sr1 :: sr2 :: sr3 :: _b0 :: _b1 :: _b2 :: _b3 ::
    _a0 :: _a1 :: p0 :: p1 :: d0 :: d1 :: d2 :: d3 ::
    n0 :: n1 :: n2 :: n3 :: rest =>
    if r0 = 82 ∧ r1 = 73 ∧ r2 = 70 ∧ r3 = 70 then
      if w0 = 87 ∧ w1 = 65 ∧ w2 = 86 ∧ w3 = 69 then
        if f0 = 102 ∧ f1 = 109 ∧ f2 = 116 ∧ f3 = 32 then
          if t0 + 256 * t1 = 1 then
            if p0 + 256 * p1 = 16 then
              if d0 = 100 ∧ d1 = 97 ∧ d2 = 116 ∧ d3 = 97 then
                .ok (ch0 + 256 * ch1,
                  sr0 + 256 * sr1 + 65536 * sr2 + 16777216 * sr3,
                  rest.take (n0 + 256 * n1 + 65536 * n2 + 16777216 * n3))
              else .error "missing data chunk"
            else .error "bit depth is not 16"
          else .error "format tag is not PCM"
        else .error "missing fmt chunk"
      else .error "missing WAVE marker"
    else .error "missing RIFF marker"
  | _ => .error "blob shorter than header"

/-- C9: container round-trip.  For every mono or stereo channel count,
every representable sample rate and every payload whose RIFF size fits
the 32-bit field, decoding the encoding returns the original PCM bytes
and format unchanged. -/
theorem C9_roundtrip (ch rate : ℕ) (pcm : List ℕ) (hch : ch = 1 ∨ ch = 2)
    (hrate : rate < 4294967296) (hlen : pcm.length + 36 < 4294967296) :
    decodeWav (encodeWav ch rate pcm) = .ok (ch, rate, pcm) := by
  have hch' : ch < 65536 := by rcases hch with h | h <;> omega
  unfold encodeWav
  simp only [decodeWav]
  norm_num
  refine ⟨by omega, by omega, ?_⟩
  have hn : pcm.length % 256 + 256 * (pcm.length / 256 % 256) +
      65536 * (pcm.length / 65536 % 256) + 16777216 * (pcm.length / 16777216 % 256) =
      pcm.length := by omega
  rw [hn]

/-- C9 witness: the round-trip at a concrete mono 44100 Hz blob with a
four-byte payload. -/
theorem C9_roundtrip_witness :
    decodeWav (encodeWav 1 44100 [1, 2, 3, 4]) = .ok (1, 44100, [1, 2, 3, 4]) :=
  C9_roundtrip 1 44100 [1, 2, 3, 4] (Or.inl rfl) (by decide) (by decide)
